import Mathlib

/-!
Verification development for the THE LAND RIDERS ride-dispatch server
(degenuniversemarketing-lang/Bykea-testing).

The repository ships several variants of the same server.  Three of them
carry the ride/offer logic the specification talks about and are embedded
here as executable state machines:

* the file-storage variant of `server.js` (events `request_ride`,
  `accept_ride`, `complete_ride` over a JSON object store) - the `Fs` model;
* the simplified in-memory variant (events `request-ride`, `make-offer`,
  `accept-offer`, `update-ride-status` over `Map`s that are created inside
  the per-socket connection handler) - the `Mem` / `Sys` models;
* the PostgreSQL variant of `server.js` (the same events implemented with
  SQL statements) - the `Pg` model.

Modelling conventions:

* JS `Map`s and objects used as dictionaries become association lists
  (`getK` / `setK` / `delK` below mirror `get` / `set` / `delete`).
* Identifier generation (`RIDE + Date.now()`, `ride_TIMESTAMP_NONCE`,
  SERIAL columns) is modelled by a fresh natural-number counter; ride and
  offer ids are therefore `Nat`.
* Timestamps (`new Date()`, `CURRENT_TIMESTAMP`) are opaque `Nat` values
  passed to each handler as a `now` argument.
* Socket emissions become explicit event lists in each handler result; an
  `err` result is a `socket.emit` of an error payload to the caller, a
  `silent` result is a handler that returns without emitting anything, and
  a `crash` result is an uncaught JS exception escaping the handler.
* Numeric prices, fares and ETAs are `Int`; the file-storage variant keeps
  fares as the strings the code stores, and `String.toInt?` stands in for
  `parseInt` (the two agree on canonical integer strings).
-/

namespace Bykea

/-- Lookup in an association list, modelling JS `Map.get` and object
property access. -/
def getK {κ α : Type} [DecidableEq κ] (k : κ) : List (κ × α) → Option α
  | [] => none
  | (k', v) :: rest => if k = k' then some v else getK k rest

/-- Update in an association list, modelling JS `Map.set` and object
property assignment: replaces the binding in place, or appends a new one. -/
def setK {κ α : Type} [DecidableEq κ] (k : κ) (v : α) : List (κ × α) → List (κ × α)
  | [] => [(k, v)]
  | (k', v') :: rest => if k = k' then (k, v) :: rest else (k', v') :: setK k v rest

/-- Deletion from an association list, modelling JS `Map.delete`. -/
def delK {κ α : Type} [DecidableEq κ] (k : κ) : List (κ × α) → List (κ × α)
  | [] => []
  | (k', v') :: rest => if k = k' then rest else (k', v') :: delK k rest

/-! ## The simplified in-memory variant

`io.on('connection', (socket) => ...)` declares
`const connections = { customers: new Map(), riders: new Map(), rides: new Map(), offers: new Map() }`
INSIDE the handler, so every socket gets its own private stores.  `ConnState`
is the store belonging to one connection; `SysState` further down is the
whole server with one `ConnState` per live socket.  The `offers` map of the
source is never read or written by any handler and is omitted. -/

/-- A customer record stored by the `customer-connect` handler
(spread of the client payload; only the name is ever read back). -/
structure MemCustomer where
  name : String
  deriving DecidableEq

/-- A rider record stored by the `rider-connect` handler.  The handler also
stores `type`, `socketId` and `connectedAt` fields that no other handler ever
reads; the map key is the socket id itself. -/
structure MemRider where
  name : String
  vehicleType : String
  licensePlate : String
  status : String
  deriving DecidableEq

/-- An offer object as built by the `make-offer` handler. -/
structure MemOffer where
  riderId : String
  riderName : String
  vehicleType : String
  licensePlate : String
  price : Int
  eta : Int
  timestamp : Nat
  deriving DecidableEq

/-- A ride object as built by `request-ride` and mutated by `make-offer`,
`accept-offer` and `update-ride-status`. -/
structure MemRide where
  id : Nat
  customerId : String
  customerName : String
  pickup : String
  dropoff : String
  fare : Int
  status : String
  createdAt : Nat
  offers : List MemOffer
  acceptedRiderId : Option String
  acceptedRiderName : Option String
  acceptedPrice : Option Int
  acceptedAt : Option Nat
  updatedAt : Option Nat
  pickedUpAt : Option Nat
  completedAt : Option Nat
  deriving DecidableEq

/-- The per-connection `connections` object. -/
structure ConnState where
  customers : List (String × MemCustomer)
  riders : List (String × MemRider)
  rides : List (Nat × MemRide)
  deriving DecidableEq

/-- Payload of `request-ride`. -/
structure MemRideReq where
  pickup : String
  dropoff : String
  fare : Option Int
  deriving DecidableEq

/-- Payload of `make-offer`. -/
structure MemOfferReq where
  rideId : Nat
  price : Int
  eta : Int
  deriving DecidableEq

/-- Payload of `accept-offer`. -/
structure MemAcceptReq where
  rideId : Nat
  riderId : String
  deriving DecidableEq

/-- Payload of `update-ride-status`. -/
structure MemStatusReq where
  rideId : Nat
  status : String
  deriving DecidableEq

/-- Socket emissions performed by the in-memory handlers. -/
inductive MemEvent where
  | rideCreated (rideId : Nat)
  | newRideRequest (rideId : Nat)
  | newRideAdmin (rideId : Nat)
  | newOffer (target : String) (rideId : Nat) (riderId : String)
  | newOfferAdmin (rideId : Nat) (riderId : String)
  | offerSent
  | offerAccepted (rideId : Nat) (riderId : String)
  | offerWon (target : String) (rideId : Nat)
  | rideTaken (rideId : Nat)
  | rideAcceptedAdmin (rideId : Nat)
  | rideStatusChanged (target : String) (rideId : Nat) (status : String)
  | rideStatusUpdatedAdmin (rideId : Nat) (status : String)
  deriving DecidableEq

/-- Result of one in-memory handler invocation. -/
inductive MemOut where
  | ok (events : List MemEvent)
  | err (msg : String)
  | silent
  deriving DecidableEq

def MemOut.isOk : MemOut → Bool
  | MemOut.ok _ => true
  | _ => false

/-- The `request-ride` handler of the in-memory variant.  `rid` is the
generated `ride_TIMESTAMP_NONCE` identifier, modelled as a fresh number
supplied by the caller (the system level threads a counter). -/
def memRequestRide (st : ConnState) (sid : String) (rid : Nat) (d : MemRideReq)
    (now : Nat) : ConnState × MemOut :=
  match getK sid st.customers with
  | none => (st, MemOut.err "Customer not found. Please reconnect.")
  | some c =>
    let ride : MemRide :=
      { id := rid, customerId := sid, customerName := c.name,
        pickup := d.pickup, dropoff := d.dropoff, fare := d.fare.getD 25,
        status := "pending", createdAt := now, offers := [],
        acceptedRiderId := none, acceptedRiderName := none, acceptedPrice := none,
        acceptedAt := none, updatedAt := none, pickedUpAt := none, completedAt := none }
    ({ st with rides := setK rid ride st.rides },
     MemOut.ok [MemEvent.rideCreated rid, MemEvent.newRideRequest rid, MemEvent.newRideAdmin rid])

/-- The `make-offer` handler of the in-memory variant: only existence of the
rider record and of the ride is checked, then the offer is pushed onto
`ride.offers` whatever the ride status is. -/
def memMakeOffer (st : ConnState) (sid : String) (d : MemOfferReq)
    (now : Nat) : ConnState × MemOut :=
  match getK sid st.riders with
  | none => (st, MemOut.err "Rider not found")
  | some rdr =>
    match getK d.rideId st.rides with
    | none => (st, MemOut.err "Ride not found")
    | some ride =>
      let offer : MemOffer :=
        { riderId := sid, riderName := rdr.name, vehicleType := rdr.vehicleType,
          licensePlate := rdr.licensePlate, price := d.price, eta := d.eta,
          timestamp := now }
      let ride' := { ride with offers := ride.offers ++ [offer] }
      ({ st with rides := setK d.rideId ride' st.rides },
       MemOut.ok ((if ride.customerId ≠ "" then
                     [MemEvent.newOffer ride.customerId d.rideId sid]
                   else []) ++ [MemEvent.newOfferAdmin d.rideId sid, MemEvent.offerSent]))

/-- The `accept-offer` handler of the in-memory variant: fails with the
`Ride not available` payload unless the ride exists and is still `pending`,
then requires an offer by the named rider, then records the winner. -/
def memAcceptOffer (st : ConnState) (_sid : String) (d : MemAcceptReq)
    (now : Nat) : ConnState × MemOut :=
  match getK d.rideId st.rides with
  | none => (st, MemOut.err "Ride not available")
  | some ride =>
    if ride.status = "pending" then
      match ride.offers.find? (fun o => o.riderId == d.riderId) with
      | none => (st, MemOut.err "Offer not found")
      | some offer =>
        let ride' := { ride with
          status := "accepted"
          acceptedRiderId := some d.riderId
          acceptedRiderName := some offer.riderName
          acceptedPrice := some offer.price
          acceptedAt := some now }
        ({ st with rides := setK d.rideId ride' st.rides },
         MemOut.ok [MemEvent.offerAccepted d.rideId d.riderId,
                    MemEvent.offerWon d.riderId d.rideId,
                    MemEvent.rideTaken d.rideId,
                    MemEvent.rideAcceptedAdmin d.rideId])
    else (st, MemOut.err "Ride not available")

/-- The `update-ride-status` handler of the in-memory variant: returns
silently when the ride id is unknown, otherwise stores the requested status
string unconditionally (no transition or caller validation) and stamps
`pickedUpAt` / `completedAt` for those two statuses. -/
def memUpdateRideStatus (st : ConnState) (_sid : String) (d : MemStatusReq)
    (now : Nat) : ConnState × MemOut :=
  match getK d.rideId st.rides with
  | none => (st, MemOut.silent)
  | some ride =>
    let ride' := { ride with
      status := d.status
      updatedAt := some now
      pickedUpAt := if d.status == "picked_up" then some now else ride.pickedUpAt
      completedAt := if d.status == "completed" then some now else ride.completedAt }
    ({ st with rides := setK d.rideId ride' st.rides },
     MemOut.ok ((if ride.customerId ≠ "" then
                   [MemEvent.rideStatusChanged ride.customerId d.rideId d.status]
                 else []) ++
                (match ride.acceptedRiderId with
                 | some rid => if rid ≠ "" then [MemEvent.rideStatusChanged rid d.rideId d.status] else []
                 | none => []) ++
                [MemEvent.rideStatusUpdatedAdmin d.rideId d.status]))

/-! ### The whole simplified server

One `ConnState` per live socket: `io.on('connection', ...)` runs the handler
body - and so creates a fresh `connections` object - once per socket.  The
`next` counter supplies the fresh ride identifiers. -/

/-- Global state of the simplified in-memory server. -/
structure SysState where
  conns : List (String × ConnState)
  next : Nat
  deriving DecidableEq

/-- The `connections` object a socket starts with. -/
def emptyConn : ConnState := { customers := [], riders := [], rides := [] }

/-- Inbound events of the simplified in-memory server, tagged with the socket
(= connection) they arrive on. -/
inductive SysOp where
  | connect (sid : String)
  | customerConnect (sid : String) (name : String)
  | riderConnect (sid : String) (name vehicleType licensePlate : String)
  | requestRide (sid : String) (d : MemRideReq) (now : Nat)
  | makeOffer (sid : String) (d : MemOfferReq) (now : Nat)
  | acceptOffer (sid : String) (d : MemAcceptReq) (now : Nat)
  | updateRideStatus (sid : String) (d : MemStatusReq) (now : Nat)
  | disconnect (sid : String)

/-- One step of the simplified server.  Every handler reads and writes only
the `ConnState` of the socket the event arrived on. -/
def sysStep (st : SysState) : SysOp → SysState
  | SysOp.connect sid => { st with conns := setK sid emptyConn st.conns }
  | SysOp.customerConnect sid name =>
    match getK sid st.conns with
    | none => st
    | some cs =>
      { st with conns := setK sid { cs with customers := setK sid ⟨name⟩ cs.customers } st.conns }
  | SysOp.riderConnect sid name vt lp =>
    match getK sid st.conns with
    | none => st
    | some cs =>
      { st with conns := setK sid { cs with riders := setK sid ⟨name, vt, lp, "online"⟩ cs.riders } st.conns }
  | SysOp.requestRide sid d now =>
    match getK sid st.conns with
    | none => st
    | some cs =>
      { conns := setK sid (memRequestRide cs sid st.next d now).1 st.conns, next := st.next + 1 }
  | SysOp.makeOffer sid d now =>
    match getK sid st.conns with
    | none => st
    | some cs => { st with conns := setK sid (memMakeOffer cs sid d now).1 st.conns }
  | SysOp.acceptOffer sid d now =>
    match getK sid st.conns with
    | none => st
    | some cs => { st with conns := setK sid (memAcceptOffer cs sid d now).1 st.conns }
  | SysOp.updateRideStatus sid d now =>
    match getK sid st.conns with
    | none => st
    | some cs => { st with conns := setK sid (memUpdateRideStatus cs sid d now).1 st.conns }
  | SysOp.disconnect sid =>
    match getK sid st.conns with
    | none => st
    | some cs =>
      { st with conns := setK sid { cs with customers := delK sid cs.customers, riders := delK sid cs.riders } st.conns }

/-- The empty server. -/
def sysInit : SysState := { conns := [], next := 0 }

/-- Run a list of inbound events. -/
def sysRun (st : SysState) : List SysOp → SysState
  | [] => st
  | op :: ops => sysRun (sysStep st op) ops

/-- A server state that can actually arise from a run. -/
def SysReachable (st : SysState) : Prop := ∃ ops, st = sysRun sysInit ops

/-- Invariant of the simplified server: every stored ride id was drawn from
the fresh counter, and no ride id is visible from two different
connections. -/
def SysInv (st : SysState) : Prop :=
  (∀ c cs rid, getK c st.conns = some cs → (getK rid cs.rides).isSome = true → rid < st.next) ∧
  (∀ c₁ c₂ cs₁ cs₂ rid, getK c₁ st.conns = some cs₁ → getK c₂ st.conns = some cs₂ →
    (getK rid cs₁.rides).isSome = true → (getK rid cs₂.rides).isSome = true → c₁ = c₂)

/-! ## The file-storage variant of `server.js`

A single global `db` object persisted to `data.json`:
`db.riders` keyed by rider id, `db.customers` keyed by customer id,
`db.rides` keyed by ride id.  The ride lifecycle handlers are
`request_ride`, `accept_ride` and `complete_ride`.  `Date.now()` based
ride ids are modelled by the `next` counter.  The `rating` field (a
floating-point 5.0 never read by any ride handler) is omitted. -/

/-- A rider record of the file-storage variant. -/
structure FsRider where
  riderId : String
  name : String
  phone : String
  vehicle : String
  password : String
  status : String
  earnings : Int
  totalRides : Nat
  socketId : Option String
  deriving DecidableEq

/-- A customer record of the file-storage variant. -/
structure FsCustomer where
  customerId : String
  name : String
  phone : String
  totalRides : Nat
  socketId : Option String
  deriving DecidableEq

/-- A ride record of the file-storage variant.  `offers` is initialised to
an empty array by `request_ride` and no handler of this variant ever appends
to it, so its element type never materialises; plain strings stand in. -/
structure FsRide where
  rideId : Nat
  customerId : String
  customerName : String
  pickup : String
  destination : String
  fare : String
  notes : String
  status : String
  createdAt : Nat
  offers : List String
  riderId : Option String
  riderName : Option String
  riderPhone : Option String
  riderVehicle : Option String
  acceptedAt : Option Nat
  estimatedArrival : Option String
  completedAt : Option Nat
  actualFare : Option String
  deriving DecidableEq

/-- The `db` object of the file-storage variant. -/
structure FsState where
  riders : List (String × FsRider)
  customers : List (String × FsCustomer)
  rides : List (Nat × FsRide)
  next : Nat
  deriving DecidableEq

/-- Payload of `request_ride`. -/
structure FsRideReq where
  pickup : String
  destination : String
  fare : Option String
  notes : Option String
  customerName : Option String
  customerId : Option String
  deriving DecidableEq

/-- Payload of `accept_ride`. -/
structure FsAcceptReq where
  rideId : Nat
  deriving DecidableEq

/-- Payload of `complete_ride`. -/
structure FsCompleteReq where
  rideId : Nat
  fare : Option String
  deriving DecidableEq

/-- Socket emissions performed by the file-storage handlers. -/
inductive FsEvent where
  | rideRequested (rideId : Nat)
  | newRideRequest (target : String) (rideId : Nat)
  | statsUpdate
  | rideAccepted (target : String) (rideId : Nat)
  | rideConfirmed (rideId : Nat)
  | rideAcceptedByRider (rideId : Nat)
  deriving DecidableEq

/-- Result of one file-storage handler invocation.  `crash` is an uncaught
exception thrown inside the handler: the mutations made before the throw
survive in `db`, but no further statement of the handler runs. -/
inductive FsOut where
  | ok (events : List FsEvent)
  | err (msg : String)
  | crash (msg : String)
  deriving DecidableEq

def FsOut.isOk : FsOut → Bool
  | FsOut.ok _ => true
  | _ => false

/-- `Object.values(db.riders).find(r => r.socketId === socket.id)`. -/
def fsFindRiderBySocket (riders : List (String × FsRider)) (sid : String) :
    Option (String × FsRider) :=
  riders.find? (fun p => p.2.socketId == some sid)

/-- `Object.values(db.customers).find(c => c.customerId === ride.customerId)`. -/
def fsFindCustomerById (customers : List (String × FsCustomer)) (cid : String) :
    Option (String × FsCustomer) :=
  customers.find? (fun p => p.2.customerId == cid)

/-- The `request_ride` handler of the file-storage variant: no validation at
all - the ride is created with status `pending` and an empty offers array
whatever the payload holds, then the caller and all online riders are
notified. -/
def fsRequestRide (st : FsState) (d : FsRideReq) (now : Nat) : FsState × FsOut :=
  let rid := st.next
  let ride : FsRide :=
    { rideId := rid,
      customerId := d.customerId.getD ("guest_" ++ toString now),
      customerName := d.customerName.getD "Customer",
      pickup := d.pickup, destination := d.destination,
      fare := d.fare.getD "To be determined",
      notes := d.notes.getD "",
      status := "pending", createdAt := now, offers := [],
      riderId := none, riderName := none, riderPhone := none, riderVehicle := none,
      acceptedAt := none, estimatedArrival := none, completedAt := none, actualFare := none }
  let onlineRiders := st.riders.filter (fun p => p.2.status == "online")
  ({ st with rides := setK rid ride st.rides, next := st.next + 1 },
   FsOut.ok ([FsEvent.rideRequested rid] ++
             (onlineRiders.filterMap (fun p => p.2.socketId.map
               (fun s => FsEvent.newRideRequest s rid))) ++
             [FsEvent.statsUpdate]))

/-- The `accept_ride` handler of the file-storage variant: existence of the
ride and of a rider with the calling socket is the only guard - the current
ride status is never inspected, so the handler succeeds on rides that are
already `active` or `completed` and overwrites the previous assignment. -/
def fsAcceptRide (st : FsState) (sid : String) (d : FsAcceptReq) (now : Nat) :
    FsState × FsOut :=
  match getK d.rideId st.rides, fsFindRiderBySocket st.riders sid with
  | some ride, some (rk, rdr) =>
    let ride' := { ride with
      status := "active"
      riderId := some rdr.riderId
      riderName := some rdr.name
      riderPhone := some rdr.phone
      riderVehicle := some rdr.vehicle
      acceptedAt := some now
      estimatedArrival := some "5-10 minutes" }
    let rdr' := { rdr with status := "busy", totalRides := rdr.totalRides + 1 }
    let customerSocket := (fsFindCustomerById st.customers ride.customerId).bind
      (fun p => p.2.socketId)
    ({ st with rides := setK d.rideId ride' st.rides, riders := setK rk rdr' st.riders },
     FsOut.ok ((match customerSocket with
                | some csid => [FsEvent.rideAccepted csid d.rideId]
                | none => []) ++
               [FsEvent.rideConfirmed d.rideId, FsEvent.rideAcceptedByRider d.rideId]))
  | _, _ => (st, FsOut.err "Invalid ride acceptance")

/-- The `complete_ride` handler of the file-storage variant.  The guard
requires the ride, a rider on the calling socket, and that this rider is
the one recorded on the ride.  On the success path the handler mutates the
ride, the rider and the customer and saves - and then evaluates the
identifier `rideId`, which is NOT declared anywhere in its scope
(`console.log('Ride completed:', rideId)`), so a `ReferenceError` is thrown
before any completion event is emitted. -/
def fsCompleteRide (st : FsState) (sid : String) (d : FsCompleteReq) (now : Nat) :
    FsState × FsOut :=
  match getK d.rideId st.rides, fsFindRiderBySocket st.riders sid with
  | some ride, some (rk, rdr) =>
    if ride.riderId = some rdr.riderId then
      let ride' := { ride with
        status := "completed"
        completedAt := some now
        actualFare := some (d.fare.getD ride.fare) }
      let rdr' := { rdr with
        status := "online"
        earnings := rdr.earnings + (((d.fare.getD "").toInt?).getD 0) }
      let customers' :=
        match fsFindCustomerById st.customers ride.customerId with
        | some (ck, c) => setK ck { c with totalRides := c.totalRides + 1 } st.customers
        | none => st.customers
      ({ st with
          rides := setK d.rideId ride' st.rides,
          riders := setK rk rdr' st.riders,
          customers := customers' },
       FsOut.crash "rideId is not defined")
    else (st, FsOut.err "Invalid ride completion")
  | _, _ => (st, FsOut.err "Invalid ride completion")

/-! ## The PostgreSQL variant of `server.js`

Tables `users`, `rides` and `offers`; SERIAL ids are the `Nat` fields.
The `rides.status` column has
`CHECK (status IN ('pending','accepted','picked_up','completed','cancelled'))`,
and `offers.ride_id` / `rides.rider_id` are foreign keys into `rides` /
`users`; violating either raises an error that the handlers catch with a
generic failure emit.  `UPDATE ... WHERE ...` statements become `List.map`
with the WHERE clause as the condition. -/

/-- A row of the `users` table (fields read by the ride handlers). -/
structure PgUser where
  id : Nat
  name : String
  socketId : Option String
  userType : String
  status : String
  deriving DecidableEq

/-- A row of the `rides` table. -/
structure PgRide where
  id : Nat
  customerId : Nat
  customerSocketId : Option String
  pickup : String
  dropoff : String
  fare : Int
  status : String
  riderId : Option Nat
  riderSocketId : Option String
  acceptedPrice : Option Int
  acceptedAt : Option Nat
  pickedUpAt : Option Nat
  completedAt : Option Nat
  updatedAt : Option Nat
  deriving DecidableEq

/-- A row of the `offers` table. -/
structure PgOffer where
  id : Nat
  rideId : Nat
  riderId : Nat
  riderSocketId : Option String
  price : Int
  etaMinutes : Int
  status : String
  deriving DecidableEq

/-- The database of the PostgreSQL variant. -/
structure PgState where
  users : List PgUser
  rides : List PgRide
  offers : List PgOffer
  deriving DecidableEq

/-- `SELECT ... FROM rides WHERE id = $1` (first matching row). -/
def pgFindRide (st : PgState) (rid : Nat) : Option PgRide :=
  st.rides.find? (fun r => r.id == rid)

/-- `SELECT ... FROM users WHERE id = $1`. -/
def pgFindUser (st : PgState) (uid : Nat) : Option PgUser :=
  st.users.find? (fun u => u.id == uid)

/-- `SELECT ... FROM users WHERE socket_id = $1`. -/
def pgUserBySocket (st : PgState) (sid : String) : Option PgUser :=
  st.users.find? (fun u => u.socketId == some sid)

/-- Payload of the PG `make-offer`. -/
structure PgOfferReq where
  rideId : Nat
  price : Int
  eta : Int
  deriving DecidableEq

/-- Payload of the PG `accept-offer` (the client supplies rider id, rider
socket and price). -/
structure PgAcceptReq where
  rideId : Nat
  riderId : Nat
  riderSocketId : Option String
  price : Int
  deriving DecidableEq

/-- Payload of the PG `update-ride-status`. -/
structure PgStatusReq where
  rideId : Nat
  status : String
  deriving DecidableEq

/-- Socket emissions performed by the PG handlers. -/
inductive PgEvent where
  | newOffer (rideId riderId : Nat)
  | newOfferAdmin (rideId riderId : Nat)
  | offerSent
  | offerAccepted (rideId : Nat)
  | offerWon (rideId : Nat)
  | rideTaken (rideId : Nat)
  | rideAcceptedAdmin (rideId : Nat)
  | rideStatusChanged (target : String) (rideId : Nat) (status : String)
  | rideStatusUpdatedAdmin (rideId : Nat) (status : String)
  deriving DecidableEq

/-- Result of one PG handler invocation. -/
inductive PgOut where
  | ok (events : List PgEvent)
  | err (msg : String)
  | silent
  deriving DecidableEq

def PgOut.isOk : PgOut → Bool
  | PgOut.ok _ => true
  | _ => false

/-- The PG `make-offer` handler: looks the rider up by socket, then runs
`INSERT INTO offers ...` with NO check of the ride status - any existing
ride can receive offers.  A nonexistent ride id makes the INSERT violate
the `offers.ride_id` foreign key, which the catch block reports as a
generic failure; when the ride row exists the subsequent join with the
customer also succeeds (rides.customer_id is itself a foreign key), and
the notifications go out. -/
def pgMakeOffer (st : PgState) (sid : String) (d : PgOfferReq) (offerId : Nat) :
    PgState × PgOut :=
  match pgUserBySocket st sid with
  | none => (st, PgOut.err "Rider not found")
  | some rdr =>
    match pgFindRide st d.rideId with
    | none => (st, PgOut.err "Failed to make offer")
    | some ride =>
      let offer : PgOffer :=
        { id := offerId, rideId := d.rideId, riderId := rdr.id,
          riderSocketId := some sid, price := d.price, etaMinutes := d.eta,
          status := "pending" }
      let st' := { st with offers := st.offers ++ [offer] }
      match pgFindUser st ride.customerId with
      | none => (st', PgOut.silent)
      | some _ =>
        (st', PgOut.ok [PgEvent.newOffer d.rideId rdr.id,
                        PgEvent.newOfferAdmin d.rideId rdr.id, PgEvent.offerSent])

/-- The PG `accept-offer` handler, a transaction of three UPDATEs and a
SELECT:

* `UPDATE rides SET status='accepted', rider_id=$1, ... WHERE id=$4 AND status='pending'` -
  the row count of this conditional update is never examined;
* `UPDATE offers SET status='accepted' WHERE ride_id=$1 AND rider_id=$2`;
* `UPDATE offers SET status='rejected' WHERE ride_id=$1 AND rider_id != $2`;
* a SELECT joining the ride with its customer and rider rows - zero rows
  make the handler ROLLBACK and return without emitting anything.

Assigning a rider id that is not in `users` while the first UPDATE matches
a row violates the `rides.rider_id` foreign key; the catch block rolls the
transaction back and reports a generic failure.  The three row
transformations are named `pgAcceptRideRow`, `pgAcceptOfferRow` and
`pgRejectOfferRow`; `pgAcceptOffer` below is the handler itself.

Row effect of the first, conditional UPDATE on `rides`. -/
def pgAcceptRideRow (d : PgAcceptReq) (now : Nat) (r : PgRide) : PgRide :=
  if r.id == d.rideId && r.status == "pending" then
    { r with
      status := "accepted"
      riderId := some d.riderId
      riderSocketId := d.riderSocketId
      acceptedPrice := some d.price
      acceptedAt := some now
      updatedAt := some now }
  else r

/-- Row effect of `UPDATE offers SET status='accepted' WHERE ride_id=$1 AND rider_id=$2`. -/
def pgAcceptOfferRow (d : PgAcceptReq) (o : PgOffer) : PgOffer :=
  if o.rideId == d.rideId && o.riderId == d.riderId then
    { o with status := "accepted" }
  else o

/-- Row effect of `UPDATE offers SET status='rejected' WHERE ride_id=$1 AND rider_id != $2`. -/
def pgRejectOfferRow (d : PgAcceptReq) (o : PgOffer) : PgOffer :=
  if o.rideId == d.rideId && !(o.riderId == d.riderId) then
    { o with status := "rejected" }
  else o

def pgAcceptOffer (st : PgState) (d : PgAcceptReq) (now : Nat) : PgState × PgOut :=
  if (st.rides.any (fun r => r.id == d.rideId && r.status == "pending")) &&
     (pgFindUser st d.riderId).isNone then
    (st, PgOut.err "Failed to accept offer")
  else
    let rides' := st.rides.map (pgAcceptRideRow d now)
    let offers' := st.offers.map (pgAcceptOfferRow d)
    let offers'' := offers'.map (pgRejectOfferRow d)
    let st' : PgState := { st with rides := rides', offers := offers'' }
    match pgFindRide st' d.rideId with
    | none => (st, PgOut.silent)
    | some r =>
      match r.riderId with
      | none => (st, PgOut.silent)
      | some rid =>
        if (pgFindUser st r.customerId).isSome && (pgFindUser st rid).isSome then
          (st', PgOut.ok [PgEvent.offerAccepted d.rideId, PgEvent.offerWon d.rideId,
                          PgEvent.rideTaken d.rideId, PgEvent.rideAcceptedAdmin d.rideId])
        else (st, PgOut.silent)

/-- The five values admitted by the `rides.status` CHECK constraint. -/
def pgStatusAllowed (s : String) : Bool :=
  s == "pending" || s == "accepted" || s == "picked_up" || s == "completed" || s == "cancelled"

/-- The PG `update-ride-status` handler:
`UPDATE rides SET status=$1 ... WHERE id=$2 RETURNING *` with no transition
or caller validation - any of the five statuses admitted by the CHECK
constraint is stored over any current status; a value outside the CHECK
raises, caught as a generic failure; an unknown ride id returns silently.
`pgStatusRideRow` is the row effect of the UPDATE, `pgUpdateRideStatus`
below the handler. -/
def pgStatusRideRow (d : PgStatusReq) (now : Nat) (r : PgRide) : PgRide :=
  if r.id == d.rideId then
    { r with
      status := d.status
      updatedAt := some now
      pickedUpAt := if d.status == "picked_up" then some now else r.pickedUpAt
      completedAt := if d.status == "completed" then some now else r.completedAt }
  else r

def pgUpdateRideStatus (st : PgState) (d : PgStatusReq) (now : Nat) : PgState × PgOut :=
  if !(pgStatusAllowed d.status) then (st, PgOut.err "Failed to update status")
  else
    match pgFindRide st d.rideId with
    | none => (st, PgOut.silent)
    | some ride =>
      let rides' := st.rides.map (pgStatusRideRow d now)
      let st' : PgState := { st with rides := rides' }
      let targets :=
        match ride.riderId with
        | some rid =>
          match pgFindUser st ride.customerId, pgFindUser st rid with
          | some u1, some u2 =>
            (match u1.socketId with
             | some s1 => [PgEvent.rideStatusChanged s1 d.rideId d.status]
             | none => []) ++
            (match u2.socketId with
             | some s2 => [PgEvent.rideStatusChanged s2 d.rideId d.status]
             | none => [])
          | _, _ => []
        | none => []
      (st', PgOut.ok (targets ++ [PgEvent.rideStatusUpdatedAdmin d.rideId d.status]))

/-- Number of offers of a ride currently marked `accepted` (the outcome the
specification calls `won`). -/
def pgCountAcceptedOffers (st : PgState) (rid : Nat) : Nat :=
  (st.offers.filter (fun o => o.rideId == rid && o.status == "accepted")).length

/-- Number of offers a given rider has on a given ride. -/
def pgCountRiderOffers (st : PgState) (rid wid : Nat) : Nat :=
  (st.offers.filter (fun o => o.rideId == rid && o.riderId == wid)).length


/-! ## Concrete runs

Small concrete server runs used to evaluate the handlers on explicit
inputs: one run of the file-storage variant, one run of the in-memory
variant inside a single connection, one run of the whole in-memory server
over two connections, and one run of the PostgreSQL variant. -/

/-- File-storage run: rider RDR1 on socket s1. -/
def fsRider1 : FsRider :=
  { riderId := "RDR1", name := "Asim", phone := "0301", vehicle := "bike",
    password := "pw1", status := "online", earnings := 0, totalRides := 0,
    socketId := some "s1" }

/-- File-storage run: rider RDR2 on socket s2. -/
def fsRider2 : FsRider :=
  { riderId := "RDR2", name := "Bilal", phone := "0303", vehicle := "car",
    password := "pw2", status := "online", earnings := 0, totalRides := 0,
    socketId := some "s2" }

/-- File-storage run: customer CUST1 on socket c1. -/
def fsCust1 : FsCustomer :=
  { customerId := "CUST1", name := "Cara", phone := "0302", totalRides := 0,
    socketId := some "c1" }

/-- File-storage run: two logged-in riders and one customer, no rides. -/
def fsBase : FsState :=
  { riders := [("RDR1", fsRider1), ("RDR2", fsRider2)],
    customers := [("CUST1", fsCust1)], rides := [], next := 0 }

/-- File-storage run after `request_ride` (ride 0, pending). -/
def fsSt1 : FsState :=
  (fsRequestRide fsBase
    { pickup := "Mall", destination := "Airport", fare := some "100",
      notes := none, customerName := some "Cara", customerId := some "CUST1" } 1).1

/-- File-storage run after RDR1 ran `accept_ride` (ride 0 is `active`). -/
def fsSt2 : FsState := (fsAcceptRide fsSt1 "s1" ⟨0⟩ 2).1

/-- A second `accept_ride`, by RDR2, on the already accepted ride 0. -/
def fsAccept2 : FsState × FsOut := fsAcceptRide fsSt2 "s2" ⟨0⟩ 3

/-- Placeholder ride used only as `Option.getD` default below. -/
def fsDummyRide : FsRide :=
  { rideId := 0, customerId := "", customerName := "", pickup := "",
    destination := "", fare := "", notes := "", status := "", createdAt := 0,
    offers := [], riderId := none, riderName := none, riderPhone := none,
    riderVehicle := none, acceptedAt := none, estimatedArrival := none,
    completedAt := none, actualFare := none }

/-- Placeholder rider used only as `Option.getD` default below. -/
def fsDummyRider : FsRider :=
  { riderId := "", name := "", phone := "", vehicle := "", password := "",
    status := "", earnings := 0, totalRides := 0, socketId := none }

/-- Ride 0 as stored after the first acceptance. -/
def fsRideAt2 : FsRide := (getK 0 fsSt2.rides).getD fsDummyRide

/-- The rider record found for socket s1 after the first acceptance. -/
def fsRiderFound2 : String × FsRider :=
  (fsFindRiderBySocket fsSt2.riders "s1").getD ("", fsDummyRider)

/-- An empty file-storage database. -/
def fsEmpty : FsState := { riders := [], customers := [], rides := [], next := 0 }

/-- `request_ride` with empty pickup and destination on the empty database. -/
def fsEmptyReq : FsState × FsOut :=
  fsRequestRide fsEmpty
    { pickup := "", destination := "", fare := none, notes := none,
      customerName := none, customerId := none } 0

/-- In-memory run: one connection holding customer c1 and rider s2. -/
def memBase : ConnState :=
  { customers := [("c1", ⟨"Cara"⟩)],
    riders := [("s2", ⟨"Bob", "bike", "LEA-7", "online"⟩)], rides := [] }

/-- In-memory run after `request-ride` (ride 0, pending). -/
def memSt1 : ConnState := (memRequestRide memBase "c1" 0 ⟨"Mall", "Airport", some 40⟩ 1).1

/-- In-memory run after rider s2 made an offer on ride 0. -/
def memSt2 : ConnState := (memMakeOffer memSt1 "s2" ⟨0, 35, 6⟩ 2).1

/-- In-memory run after the customer accepted the s2 offer (ride 0 accepted). -/
def memSt3 : ConnState := (memAcceptOffer memSt2 "c1" ⟨0, "s2"⟩ 3).1

/-- In-memory run after `update-ride-status` set ride 0 to `completed`. -/
def memSt4 : ConnState := (memUpdateRideStatus memSt3 "s2" ⟨0, "completed"⟩ 4).1

/-- Placeholder ride used only as `Option.getD` default below. -/
def memDummyRide : MemRide :=
  { id := 0, customerId := "", customerName := "", pickup := "", dropoff := "",
    fare := 0, status := "", createdAt := 0, offers := [], acceptedRiderId := none,
    acceptedRiderName := none, acceptedPrice := none, acceptedAt := none,
    updatedAt := none, pickedUpAt := none, completedAt := none }

/-- Placeholder offer used only as `Option.getD` default below. -/
def memDummyOffer : MemOffer :=
  { riderId := "", riderName := "", vehicleType := "", licensePlate := "",
    price := 0, eta := 0, timestamp := 0 }

/-- Ride 0 as stored after the s2 offer. -/
def memRideAt2 : MemRide := (getK 0 memSt2.rides).getD memDummyRide

/-- The s2 offer as stored on ride 0. -/
def memOfferAt2 : MemOffer :=
  (memRideAt2.offers.find? (fun o => o.riderId == "s2")).getD memDummyOffer

/-- Ride 0 as stored after the acceptance. -/
def memRideAt3 : MemRide := (getK 0 memSt3.rides).getD memDummyRide

/-- Ride 0 as stored after the completion. -/
def memRideAt4 : MemRide := (getK 0 memSt4.rides).getD memDummyRide

/-- The rider record stored for socket s2. -/
def memRiderS2 : MemRider := ⟨"Bob", "bike", "LEA-7", "online"⟩

/-- Whole-server run: customer Ann on connection A creates ride 0, rider Bob
joins on connection B. -/
def c3Ops : List SysOp :=
  [SysOp.connect "A", SysOp.customerConnect "A" "Ann",
   SysOp.requestRide "A" ⟨"Plaza", "Dock", some 30⟩ 1,
   SysOp.connect "B", SysOp.riderConnect "B" "Bob" "bike" "LEA-7"]

/-- The server state after that run. -/
def c3St : SysState := sysRun sysInit c3Ops

/-- Connection A state (holds ride 0). -/
def c3CsA : ConnState := (getK "A" c3St.conns).getD emptyConn

/-- Connection B state (holds rider Bob, no rides). -/
def c3CsB : ConnState := (getK "B" c3St.conns).getD emptyConn

/-- Ride 0 as stored inside connection A. -/
def c3Ride : MemRide := (getK 0 c3CsA.rides).getD memDummyRide

/-- PostgreSQL run: the customer row. -/
def pgCust : PgUser :=
  { id := 1, name := "Cara", socketId := some "pc1", userType := "customer",
    status := "online" }

/-- PostgreSQL run: the rider row. -/
def pgRider7 : PgUser :=
  { id := 7, name := "Riya", socketId := some "ps7", userType := "rider",
    status := "online" }

/-- PostgreSQL run: ride 1, pending, no offers yet. -/
def pgRide1 : PgRide :=
  { id := 1, customerId := 1, customerSocketId := some "pc1", pickup := "Mall",
    dropoff := "Airport", fare := 40, status := "pending", riderId := none,
    riderSocketId := none, acceptedPrice := none, acceptedAt := none,
    pickedUpAt := none, completedAt := none, updatedAt := none }

/-- PostgreSQL run: base database. -/
def pgBase : PgState := { users := [pgCust, pgRider7], rides := [pgRide1], offers := [] }

/-- PostgreSQL run after rider 7 made an offer on ride 1. -/
def pgSt1 : PgState := (pgMakeOffer pgBase "ps7" ⟨1, 10, 5⟩ 1).1

/-- PostgreSQL run after rider 7 made a second offer on the same ride
(`make-offer` has no duplicate check, so both rows exist). -/
def pgSt2 : PgState := (pgMakeOffer pgSt1 "ps7" ⟨1, 9, 4⟩ 2).1

/-- PostgreSQL run after the customer accepted rider 7 on ride 1. -/
def pgSt3 : PgState := (pgAcceptOffer pgSt2 ⟨1, 7, some "ps7", 9⟩ 3).1

/-- Placeholder PG ride used only as `Option.getD` default below. -/
def pgDummyRide : PgRide :=
  { id := 0, customerId := 0, customerSocketId := none, pickup := "",
    dropoff := "", fare := 0, status := "", riderId := none, riderSocketId := none,
    acceptedPrice := none, acceptedAt := none, pickedUpAt := none,
    completedAt := none, updatedAt := none }

/-- Ride 0 as stored after the file-storage `request_ride`. -/
def fsRideAt1 : FsRide := (getK 0 fsSt1.rides).getD fsDummyRide

/-- Ride 1 as stored after the PG acceptance. -/
def pgRideAt3 : PgRide := (pgFindRide pgSt3 1).getD pgDummyRide

/-- A `request_ride` payload used by a witness below. -/
def fsReqW : FsRideReq :=
  { pickup := "Beach", destination := "Hotel", fare := none, notes := none,
    customerName := none, customerId := some "CUST9" }

/-! ## Lemmas and theorems -/

theorem getK_setK {κ α : Type} [DecidableEq κ] (k k' : κ) (v : α) (l : List (κ × α)) :
    getK k (setK k' v l) = if k = k' then some v else getK k l := by
  induction l with
  | nil => by_cases h : k = k' <;> simp [getK, setK, h]
  | cons hd tl ih =>
    obtain ⟨hk, hv⟩ := hd
    by_cases h1 : k' = hk
    · subst h1
      by_cases h2 : k = k' <;> simp [getK, setK, h2]
    · by_cases h2 : k = hk
      · subst h2
        have : ¬ k = k' := fun he => h1 he.symm
        simp [getK, setK, h1, this]
      · simp [getK, setK, h1, h2, ih]

theorem getK_setK_self {κ α : Type} [DecidableEq κ] (k : κ) (v : α) (l : List (κ × α)) :
    getK k (setK k v l) = some v := by
  simp [getK_setK]

theorem getK_setK_ne {κ α : Type} [DecidableEq κ] {k k' : κ} (v : α) (l : List (κ × α))
    (h : k ≠ k') : getK k (setK k' v l) = getK k l := by
  simp [getK_setK, h]


theorem memRequestRide_rides_sub (cs : ConnState) (sid : String) (rid : Nat)
    (d : MemRideReq) (now r : Nat)
    (h : (getK r (memRequestRide cs sid rid d now).1.rides).isSome = true) :
    r = rid ∨ (getK r cs.rides).isSome = true := by
  unfold memRequestRide at h
  cases hc : getK sid cs.customers with
  | none => rw [hc] at h; exact Or.inr h
  | some c =>
    rw [hc] at h
    simp only at h
    rw [getK_setK] at h
    by_cases he : r = rid
    · exact Or.inl he
    · rw [if_neg he] at h; exact Or.inr h

theorem memMakeOffer_rides_sub (cs : ConnState) (sid : String) (d : MemOfferReq)
    (now r : Nat)
    (h : (getK r (memMakeOffer cs sid d now).1.rides).isSome = true) :
    (getK r cs.rides).isSome = true := by
  unfold memMakeOffer at h
  cases hr : getK sid cs.riders with
  | none => rw [hr] at h; exact h
  | some rdr =>
    rw [hr] at h
    cases hd : getK d.rideId cs.rides with
    | none => rw [hd] at h; exact h
    | some ride =>
      rw [hd] at h
      simp only at h
      rw [getK_setK] at h
      by_cases he : r = d.rideId
      · subst he; rw [hd]; rfl
      · rw [if_neg he] at h; exact h

theorem memAcceptOffer_rides_sub (cs : ConnState) (sid : String) (d : MemAcceptReq)
    (now r : Nat)
    (h : (getK r (memAcceptOffer cs sid d now).1.rides).isSome = true) :
    (getK r cs.rides).isSome = true := by
  unfold memAcceptOffer at h
  cases hd : getK d.rideId cs.rides with
  | none => rw [hd] at h; exact h
  | some ride =>
    rw [hd] at h
    simp only at h
    by_cases hs : ride.status = "pending"
    · rw [if_pos hs] at h
      cases hf : ride.offers.find? (fun o => o.riderId == d.riderId) with
      | none => rw [hf] at h; exact h
      | some offer =>
        rw [hf] at h
        simp only at h
        rw [getK_setK] at h
        by_cases he : r = d.rideId
        · subst he; rw [hd]; rfl
        · rw [if_neg he] at h; exact h
    · rw [if_neg hs] at h; exact h

theorem memUpdateRideStatus_rides_sub (cs : ConnState) (sid : String) (d : MemStatusReq)
    (now r : Nat)
    (h : (getK r (memUpdateRideStatus cs sid d now).1.rides).isSome = true) :
    (getK r cs.rides).isSome = true := by
  unfold memUpdateRideStatus at h
  cases hd : getK d.rideId cs.rides with
  | none => rw [hd] at h; exact h
  | some ride =>
    rw [hd] at h
    simp only at h
    rw [getK_setK] at h
    by_cases he : r = d.rideId
    · subst he; rw [hd]; rfl
    · rw [if_neg he] at h; exact h

theorem sysInv_set_empty (st : SysState) (sid : String) (h : SysInv st) :
    SysInv { st with conns := setK sid emptyConn st.conns } := by
  obtain ⟨h1, h2⟩ := h
  constructor
  · intro c cs rid hc hr
    rw [getK_setK] at hc
    by_cases he : c = sid
    · rw [if_pos he] at hc
      cases hc
      simp [emptyConn, getK] at hr
    · rw [if_neg he] at hc
      exact h1 c cs rid hc hr
  · intro c₁ c₂ cs₁ cs₂ rid hc1 hc2 hr1 hr2
    rw [getK_setK] at hc1 hc2
    by_cases he1 : c₁ = sid
    · rw [if_pos he1] at hc1
      cases hc1
      simp [emptyConn, getK] at hr1
    · rw [if_neg he1] at hc1
      by_cases he2 : c₂ = sid
      · rw [if_pos he2] at hc2
        cases hc2
        simp [emptyConn, getK] at hr2
      · rw [if_neg he2] at hc2
        exact h2 c₁ c₂ cs₁ cs₂ rid hc1 hc2 hr1 hr2

theorem sysInv_update_conn (st : SysState) (sid : String) (cs cs' : ConnState)
    (h : SysInv st) (hcs : getK sid st.conns = some cs)
    (hkeys : ∀ r, (getK r cs'.rides).isSome = true → (getK r cs.rides).isSome = true) :
    SysInv { st with conns := setK sid cs' st.conns } := by
  obtain ⟨h1, h2⟩ := h
  constructor
  · intro c csx rid hc hr
    rw [getK_setK] at hc
    by_cases he : c = sid
    · rw [if_pos he] at hc
      cases hc
      exact h1 sid cs rid hcs (hkeys rid hr)
    · rw [if_neg he] at hc
      exact h1 c csx rid hc hr
  · intro c₁ c₂ cs₁ cs₂ rid hc1 hc2 hr1 hr2
    rw [getK_setK] at hc1 hc2
    by_cases he1 : c₁ = sid
    · by_cases he2 : c₂ = sid
      · rw [he1, he2]
      · rw [if_pos he1] at hc1
        rw [if_neg he2] at hc2
        cases hc1
        have := h2 sid c₂ cs cs₂ rid hcs hc2 (hkeys rid hr1) hr2
        rw [he1, this]
    · by_cases he2 : c₂ = sid
      · rw [if_neg he1] at hc1
        rw [if_pos he2] at hc2
        cases hc2
        have := h2 c₁ sid cs₁ cs rid hc1 hcs hr1 (hkeys rid hr2)
        rw [he2, this]
      · rw [if_neg he1] at hc1
        rw [if_neg he2] at hc2
        exact h2 c₁ c₂ cs₁ cs₂ rid hc1 hc2 hr1 hr2

theorem sysInv_add_ride (st : SysState) (sid : String) (cs cs' : ConnState)
    (h : SysInv st) (hcs : getK sid st.conns = some cs)
    (hkeys : ∀ r, (getK r cs'.rides).isSome = true →
      r = st.next ∨ (getK r cs.rides).isSome = true) :
    SysInv { conns := setK sid cs' st.conns, next := st.next + 1 } := by
  obtain ⟨h1, h2⟩ := h
  constructor
  · intro c csx rid hc hr
    simp only at hc hr ⊢
    rw [getK_setK] at hc
    by_cases he : c = sid
    · rw [if_pos he] at hc
      cases hc
      rcases hkeys rid hr with hq | hq
      · omega
      · have := h1 sid cs rid hcs hq
        omega
    · rw [if_neg he] at hc
      have := h1 c csx rid hc hr
      omega
  · intro c₁ c₂ cs₁ cs₂ rid hc1 hc2 hr1 hr2
    simp only at hc1 hc2
    rw [getK_setK] at hc1 hc2
    by_cases he1 : c₁ = sid
    · by_cases he2 : c₂ = sid
      · rw [he1, he2]
      · rw [if_pos he1] at hc1
        rw [if_neg he2] at hc2
        cases hc1
        rcases hkeys rid hr1 with hq | hq
        · have := h1 c₂ cs₂ rid hc2 hr2
          omega
        · have := h2 sid c₂ cs cs₂ rid hcs hc2 hq hr2
          rw [he1, this]
    · by_cases he2 : c₂ = sid
      · rw [if_neg he1] at hc1
        rw [if_pos he2] at hc2
        cases hc2
        rcases hkeys rid hr2 with hq | hq
        · have := h1 c₁ cs₁ rid hc1 hr1
          omega
        · have := h2 c₁ sid cs₁ cs rid hc1 hcs hr1 hq
          rw [he2, this]
      · rw [if_neg he1] at hc1
        rw [if_neg he2] at hc2
        exact h2 c₁ c₂ cs₁ cs₂ rid hc1 hc2 hr1 hr2

theorem sysStep_inv (st : SysState) (op : SysOp) (h : SysInv st) :
    SysInv (sysStep st op) := by
  cases op with
  | connect sid => exact sysInv_set_empty st sid h
  | customerConnect sid name =>
    cases hc : getK sid st.conns with
    | none => simp only [sysStep, hc]; exact h
    | some cs =>
      simp only [sysStep, hc]
      exact sysInv_update_conn st sid cs _ h hc (fun r hr => hr)
  | riderConnect sid name vt lp =>
    cases hc : getK sid st.conns with
    | none => simp only [sysStep, hc]; exact h
    | some cs =>
      simp only [sysStep, hc]
      exact sysInv_update_conn st sid cs _ h hc (fun r hr => hr)
  | requestRide sid d now =>
    cases hc : getK sid st.conns with
    | none => simp only [sysStep, hc]; exact h
    | some cs =>
      simp only [sysStep, hc]
      exact sysInv_add_ride st sid cs _ h hc
        (fun r hr => memRequestRide_rides_sub cs sid st.next d now r hr)
  | makeOffer sid d now =>
    cases hc : getK sid st.conns with
    | none => simp only [sysStep, hc]; exact h
    | some cs =>
      simp only [sysStep, hc]
      exact sysInv_update_conn st sid cs _ h hc
        (fun r hr => memMakeOffer_rides_sub cs sid d now r hr)
  | acceptOffer sid d now =>
    cases hc : getK sid st.conns with
    | none => simp only [sysStep, hc]; exact h
    | some cs =>
      simp only [sysStep, hc]
      exact sysInv_update_conn st sid cs _ h hc
        (fun r hr => memAcceptOffer_rides_sub cs sid d now r hr)
  | updateRideStatus sid d now =>
    cases hc : getK sid st.conns with
    | none => simp only [sysStep, hc]; exact h
    | some cs =>
      simp only [sysStep, hc]
      exact sysInv_update_conn st sid cs _ h hc
        (fun r hr => memUpdateRideStatus_rides_sub cs sid d now r hr)
  | disconnect sid =>
    cases hc : getK sid st.conns with
    | none => simp only [sysStep, hc]; exact h
    | some cs =>
      simp only [sysStep, hc]
      exact sysInv_update_conn st sid cs _ h hc (fun r hr => hr)

theorem sysRun_inv (ops : List SysOp) (st : SysState) (h : SysInv st) :
    SysInv (sysRun st ops) := by
  induction ops generalizing st with
  | nil => exact h
  | cons op ops ih => exact ih (sysStep st op) (sysStep_inv st op h)

theorem sysInit_inv : SysInv sysInit := by
  constructor
  · intro c cs rid hc
    simp [sysInit, getK] at hc
  · intro c₁ c₂ cs₁ cs₂ rid hc1
    simp [sysInit, getK] at hc1

theorem sysReachable_inv (st : SysState) (h : SysReachable st) : SysInv st := by
  obtain ⟨ops, rfl⟩ := h
  exact sysRun_inv ops sysInit sysInit_inv

/-! ### Claim C3 -/

/-- C3: in the simplified in-memory variant the customers, riders, rides and
offers maps are created anew inside each socket connection handler, so they
are scoped to a single connection.  For every reachable server state, a ride
stored on connection `c` is invisible on any other connection: the lookup on
the other connection finds no ride, `make-offer` there fails with the
Ride not found error (Rider not found first if the caller is not even a
registered rider on that connection), `accept-offer` fails with the
Ride not available error, and `update-ride-status` returns silently, all
leaving that connection unchanged - so a ride can never be offered on or
accepted by a party on a connection other than its creator's own. -/
theorem mem_connection_scoped_rides (st : SysState) (c c' : String)
    (cs cs' : ConnState) (rid : Nat) (r : MemRide)
    (hreach : SysReachable st)
    (hc : getK c st.conns = some cs) (hr : getK rid cs.rides = some r)
    (hc' : getK c' st.conns = some cs') (hne : c' ≠ c) :
    getK rid cs'.rides = none
    ∧ (∀ d : MemOfferReq, ∀ now : Nat, d.rideId = rid →
        memMakeOffer cs' c' d now
          = (cs', MemOut.err (if (getK c' cs'.riders).isSome = true
                              then "Ride not found" else "Rider not found")))
    ∧ (∀ d : MemAcceptReq, ∀ now : Nat, d.rideId = rid →
        memAcceptOffer cs' c' d now = (cs', MemOut.err "Ride not available"))
    ∧ (∀ d : MemStatusReq, ∀ now : Nat, d.rideId = rid →
        memUpdateRideStatus cs' c' d now = (cs', MemOut.silent)) := by
  have hinv := sysReachable_inv st hreach
  have hnone : getK rid cs'.rides = none := by
    cases hg : getK rid cs'.rides with
    | none => rfl
    | some x =>
      have h1 : (getK rid cs.rides).isSome = true := by rw [hr]; rfl
      have h2 : (getK rid cs'.rides).isSome = true := by rw [hg]; rfl
      exact absurd (hinv.2 c' c cs' cs rid hc' hc h2 h1) hne
  refine ⟨hnone, ?_, ?_, ?_⟩
  · intro d now hd
    have hnone' : getK d.rideId cs'.rides = none := by rw [hd]; exact hnone
    cases hrk : getK c' cs'.riders with
    | none => simp [memMakeOffer, hrk]
    | some rdr => simp [memMakeOffer, hrk, hnone']
  · intro d now hd
    have hnone' : getK d.rideId cs'.rides = none := by rw [hd]; exact hnone
    simp [memAcceptOffer, hnone']
  · intro d now hd
    have hnone' : getK d.rideId cs'.rides = none := by rw [hd]; exact hnone
    simp [memUpdateRideStatus, hnone']

/-- Witness for C3: after the concrete run `c3Ops` (customer Ann creates
ride 0 on connection A, rider Bob joins on connection B), all three ride
operations on connection B fail to find ride 0. -/
theorem mem_connection_scoped_rides_witness :
    getK 0 c3CsB.rides = none
    ∧ memMakeOffer c3CsB "B" ⟨0, 20, 5⟩ 6 = (c3CsB, MemOut.err "Ride not found")
    ∧ memAcceptOffer c3CsB "B" ⟨0, "B"⟩ 7 = (c3CsB, MemOut.err "Ride not available")
    ∧ memUpdateRideStatus c3CsB "B" ⟨0, "completed"⟩ 8 = (c3CsB, MemOut.silent) := by
  have h := mem_connection_scoped_rides c3St "A" "B" c3CsA c3CsB 0 c3Ride
    ⟨c3Ops, rfl⟩ (by decide) (by decide) (by decide) (by decide)
  refine ⟨h.1, ?_, h.2.2.1 ⟨0, "B"⟩ 7 rfl, h.2.2.2 ⟨0, "completed"⟩ 8 rfl⟩
  have h2 := h.2.1 ⟨0, 20, 5⟩ 6 rfl
  rw [h2]
  decide

/-! ### Claim C1 -/

/-- C1 fails on the file-storage accept_ride handler: after the concrete run
`fsBase` / `fsSt1` / `fsSt2`, ride 0 is already accepted (status `active`,
assigned to RDR1), yet a second `accept_ride` by the distinct rider RDR2
succeeds - no RideAlreadyAccepted error, not even a no-op - and silently
overwrites the assignment. -/
theorem fs_accept_ride_succeeds_on_nonpending :
    (getK 0 fsSt2.rides).map (fun r => r.status) = some "active"
    ∧ FsOut.isOk fsAccept2.2 = true
    ∧ (getK 0 fsAccept2.1.rides).map (fun r => r.riderId) = some (some "RDR2") := by
  decide

/-- C1 (amended): only the in-memory accept-offer handler checks the status:
there an accept attempt succeeds exactly when the ride exists on the
connection with status still `pending` and the named rider has an offer on
it; a success records the winner on the ride, and every later accept
attempt on that ride fails with the `Ride not available` error (the
variant's RideAlreadyAccepted) leaving the state unchanged, so any number
of accept attempts produce exactly one winner. -/
theorem mem_accept_offer_single_winner (st : ConnState) (sid : String)
    (d : MemAcceptReq) (now : Nat) :
    (MemOut.isOk (memAcceptOffer st sid d now).2 = true ↔
      ∃ r, getK d.rideId st.rides = some r ∧ r.status = "pending"
        ∧ (r.offers.find? (fun o => o.riderId == d.riderId)).isSome = true)
    ∧ (∀ r o, getK d.rideId st.rides = some r → r.status = "pending" →
        r.offers.find? (fun o => o.riderId == d.riderId) = some o →
        getK d.rideId (memAcceptOffer st sid d now).1.rides
          = some { r with
              status := "accepted"
              acceptedRiderId := some d.riderId
              acceptedRiderName := some o.riderName
              acceptedPrice := some o.price
              acceptedAt := some now }
        ∧ (∀ sid' : String, ∀ d' : MemAcceptReq, ∀ now' : Nat, d'.rideId = d.rideId →
            memAcceptOffer (memAcceptOffer st sid d now).1 sid' d' now'
              = ((memAcceptOffer st sid d now).1, MemOut.err "Ride not available"))) := by
  constructor
  · constructor
    · intro hok
      cases hg : getK d.rideId st.rides with
      | none => simp [memAcceptOffer, hg, MemOut.isOk] at hok
      | some r =>
        by_cases hs : r.status = "pending"
        · cases hf : r.offers.find? (fun o => o.riderId == d.riderId) with
          | none => simp [memAcceptOffer, hg, hs, hf, MemOut.isOk] at hok
          | some o => exact ⟨r, rfl, hs, by rw [hf]; rfl⟩
        · simp [memAcceptOffer, hg, hs, MemOut.isOk] at hok
    · rintro ⟨r, hg, hs, hf⟩
      cases hfo : r.offers.find? (fun o => o.riderId == d.riderId) with
      | none => rw [hfo] at hf; simp at hf
      | some o => simp [memAcceptOffer, hg, hs, hfo, MemOut.isOk]
  · intro r o hg hs hf
    have hstate : (memAcceptOffer st sid d now).1
        = { st with rides := setK d.rideId { r with
              status := "accepted"
              acceptedRiderId := some d.riderId
              acceptedRiderName := some o.riderName
              acceptedPrice := some o.price
              acceptedAt := some now } st.rides } := by
      simp [memAcceptOffer, hg, hs, hf]
    constructor
    · rw [hstate]
      exact getK_setK_self d.rideId _ st.rides
    · intro sid' d' now' hd'
      rw [hstate]
      have hlook : getK d'.rideId (setK d.rideId { r with
          status := "accepted"
          acceptedRiderId := some d.riderId
          acceptedRiderName := some o.riderName
          acceptedPrice := some o.price
          acceptedAt := some now } st.rides)
          = some { r with
              status := "accepted"
              acceptedRiderId := some d.riderId
              acceptedRiderName := some o.riderName
              acceptedPrice := some o.price
              acceptedAt := some now } := by
        rw [hd']
        exact getK_setK_self d.rideId _ st.rides
      simp [memAcceptOffer, hlook]

/-- Witness for C1: on the concrete in-memory run, the first accept of ride 0
succeeds and a repeated accept fails with the `Ride not available` error and
leaves the state unchanged. -/
theorem mem_accept_offer_single_winner_witness :
    MemOut.isOk (memAcceptOffer memSt2 "c1" ⟨0, "s2"⟩ 3).2 = true
    ∧ memAcceptOffer (memAcceptOffer memSt2 "c1" ⟨0, "s2"⟩ 3).1 "c1" ⟨0, "s2"⟩ 5
        = ((memAcceptOffer memSt2 "c1" ⟨0, "s2"⟩ 3).1, MemOut.err "Ride not available") := by
  have h := mem_accept_offer_single_winner memSt2 "c1" ⟨0, "s2"⟩ 3
  refine ⟨?_, ?_⟩
  · exact h.1.mpr ⟨memRideAt2, by decide, by decide, by decide⟩
  · exact (h.2 memRideAt2 memOfferAt2 (by decide) (by decide) (by decide)).2 "c1" ⟨0, "s2"⟩ 5 rfl

/-! ### Claim C2 -/

theorem find?_map_id_pred {β : Type} (l : List β) (p : β → Bool) (f : β → β)
    (hf : ∀ x, p (f x) = p x) :
    (l.map f).find? p = (l.find? p).map f := by
  induction l with
  | nil => rfl
  | cons x xs ih =>
    cases hp : p x with
    | true =>
      have hpf : p (f x) = true := by rw [hf, hp]
      simp [List.find?_cons, hpf, hp]
    | false =>
      have hpf : p (f x) = false := by rw [hf, hp]
      simp [List.find?_cons, hpf, hp, ih]

theorem pgAcceptRideRow_id (d : PgAcceptReq) (now : Nat) (x : PgRide) :
    ((pgAcceptRideRow d now x).id == d.rideId) = (x.id == d.rideId) := by
  unfold pgAcceptRideRow
  split <;> rfl

theorem pg_accept_count (d : PgAcceptReq) (offers : List PgOffer) :
    (((offers.map (pgAcceptOfferRow d)).map (pgRejectOfferRow d)).filter
        (fun o => o.rideId == d.rideId && o.status == "accepted")).length
    = ((offers.filter (fun o => o.rideId == d.rideId && o.riderId == d.riderId)).length) := by
  induction offers with
  | nil => rfl
  | cons x xs ih =>
    simp only [List.map_cons]
    simp only [List.map_map] at ih
    by_cases h1 : x.rideId = d.rideId
    · by_cases h2 : x.riderId = d.riderId
      · have e1 : pgAcceptOfferRow d x = { x with status := "accepted" } := by
          simp [pgAcceptOfferRow, h1, h2]
        have e2 : pgRejectOfferRow d { x with status := "accepted" }
            = { x with status := "accepted" } := by
          simp [pgRejectOfferRow, h2]
        rw [e1, e2]
        simp [List.filter_cons, h1, h2, ih]
      · have e1 : pgAcceptOfferRow d x = x := by
          simp [pgAcceptOfferRow, h2]
        have e2 : pgRejectOfferRow d x = { x with status := "rejected" } := by
          simp [pgRejectOfferRow, h1, h2]
        rw [e1, e2]
        simp [List.filter_cons, h1, h2, ih]
    · have e1 : pgAcceptOfferRow d x = x := by
        simp [pgAcceptOfferRow, h1]
      have e2 : pgRejectOfferRow d x = x := by
        simp [pgRejectOfferRow, h1]
      rw [e1, e2]
      simp [List.filter_cons, h1, ih]

theorem pg_accept_offer_pointwise (d : PgAcceptReq) (x : PgOffer)
    (hx : x.rideId = d.rideId) :
    ((pgRejectOfferRow d (pgAcceptOfferRow d x)).status = "accepted"
      ↔ (pgRejectOfferRow d (pgAcceptOfferRow d x)).riderId = d.riderId) := by
  by_cases h2 : x.riderId = d.riderId
  · have e1 : pgAcceptOfferRow d x = { x with status := "accepted" } := by
      simp [pgAcceptOfferRow, hx, h2]
    have e2 : pgRejectOfferRow d { x with status := "accepted" }
        = { x with status := "accepted" } := by
      simp [pgRejectOfferRow, h2]
    rw [e1, e2]
    simp [h2]
  · have e1 : pgAcceptOfferRow d x = x := by
      simp [pgAcceptOfferRow, h2]
    have e2 : pgRejectOfferRow d x = { x with status := "rejected" } := by
      simp [pgRejectOfferRow, hx, h2]
    rw [e1, e2]
    simp [h2]

/-- C2 fails on the code: in the PostgreSQL variant, `make-offer` gladly
inserts two offer rows by the same rider on the same ride, and the
`accept-offer` transaction then marks BOTH of them `accepted` (the outcome
the specification calls `won`): after the concrete run `pgBase` / `pgSt1` /
`pgSt2` / `pgSt3`, ride 1 carries two accepted offers. -/
theorem pg_two_offers_accepted_counterexample :
    pgCountAcceptedOffers pgSt3 1 = 2
    ∧ (pgFindRide pgSt3 1).map (fun r => (r.status, r.riderId))
        = some ("accepted", some 7) := by
  decide

/-- C2 (amended): after a successful `accept-offer` on a pending ride in the
PostgreSQL variant, the offers of that ride marked `accepted` are exactly
the offers of the rider named in the accepting call - all of them - and the
ride records that rider; hence the number of accepted offers equals the
number of offers that rider had on the ride, and `at most one offer won`
holds only when that rider had at most one offer there (the in-memory
variant never marks offer outcomes at all). -/
theorem pg_accept_offer_accepted_set (st : PgState) (d : PgAcceptReq) (r : PgRide)
    (now : Nat)
    (hr : pgFindRide st d.rideId = some r) (hp : r.status = "pending")
    (hcust : (pgFindUser st r.customerId).isSome = true)
    (hrdr : (pgFindUser st d.riderId).isSome = true) :
    (pgFindRide (pgAcceptOffer st d now).1 d.rideId).map (fun rr => (rr.status, rr.riderId))
      = some ("accepted", some d.riderId)
    ∧ pgCountAcceptedOffers (pgAcceptOffer st d now).1 d.rideId
        = pgCountRiderOffers st d.rideId d.riderId
    ∧ (∀ o, o ∈ (pgAcceptOffer st d now).1.offers → o.rideId = d.rideId →
        (o.status = "accepted" ↔ o.riderId = d.riderId)) := by
  cases hu : pgFindUser st d.riderId with
  | none => rw [hu] at hrdr; simp at hrdr
  | some u =>
    have hr' : st.rides.find? (fun rr => rr.id == d.rideId) = some r := by
      have hq := hr
      unfold pgFindRide at hq
      exact hq
    have hcond : (r.id == d.rideId && r.status == "pending") = true := by
      have h1 := List.find?_some hr'
      rw [Bool.and_eq_true]
      refine ⟨h1, ?_⟩
      rw [hp]
      rfl
    have hride : pgAcceptRideRow d now r
        = { r with
            status := "accepted"
            riderId := some d.riderId
            riderSocketId := d.riderSocketId
            acceptedPrice := some d.price
            acceptedAt := some now
            updatedAt := some now } := by
      unfold pgAcceptRideRow
      rw [if_pos hcond]
    have hfr : (st.rides.map (pgAcceptRideRow d now)).find? (fun rr => rr.id == d.rideId)
        = some (pgAcceptRideRow d now r) := by
      rw [find?_map_id_pred st.rides _ (pgAcceptRideRow d now)
            (fun x => pgAcceptRideRow_id d now x)]
      rw [hr']
      rfl
    have hmain : pgAcceptOffer st d now
        = ({ st with
              rides := st.rides.map (pgAcceptRideRow d now),
              offers := (st.offers.map (pgAcceptOfferRow d)).map (pgRejectOfferRow d) },
           PgOut.ok [PgEvent.offerAccepted d.rideId, PgEvent.offerWon d.rideId,
                     PgEvent.rideTaken d.rideId, PgEvent.rideAcceptedAdmin d.rideId]) := by
      unfold pgAcceptOffer
      rw [hu]
      simp only [Option.isNone_some, Bool.and_false, Bool.false_eq_true, if_false]
      have hfind : pgFindRide
          { st with
            rides := st.rides.map (pgAcceptRideRow d now),
            offers := (st.offers.map (pgAcceptOfferRow d)).map (pgRejectOfferRow d) }
          d.rideId = some (pgAcceptRideRow d now r) := hfr
      rw [hfind, hride]
      simp only
      rw [show pgFindUser st r.customerId = pgFindUser st r.customerId from rfl]
      cases hcu : pgFindUser st r.customerId with
      | none => rw [hcu] at hcust; simp at hcust
      | some cu =>
        rw [hu]
        rfl
    rw [hmain]
    refine ⟨?_, ?_, ?_⟩
    · show ((st.rides.map (pgAcceptRideRow d now)).find? (fun rr => rr.id == d.rideId)).map
          (fun rr => (rr.status, rr.riderId)) = some ("accepted", some d.riderId)
      rw [hfr, hride]
      rfl
    · exact pg_accept_count d st.offers
    · intro o ho hor
      rcases List.mem_map.mp ho with ⟨y, hy, hyo⟩
      rcases List.mem_map.mp hy with ⟨x, hx, hxy⟩
      have hxr : x.rideId = d.rideId := by
        have hpres : (pgRejectOfferRow d (pgAcceptOfferRow d x)).rideId = x.rideId := by
          unfold pgRejectOfferRow pgAcceptOfferRow
          split <;> split <;> rfl
        rw [← hyo, ← hxy] at hor
        rw [hpres] at hor
        exact hor
      have := pg_accept_offer_pointwise d x hxr
      rw [hxy] at this
      rw [hyo] at this
      exact this

/-- Witness for C2: on a run where rider 7 has a single offer on pending
ride 1, accepting rider 7 leaves exactly one accepted offer, equal to the
number of offers rider 7 held. -/
theorem pg_accept_offer_accepted_set_witness :
    (pgFindRide (pgAcceptOffer pgSt1 ⟨1, 7, some "ps7", 10⟩ 3).1 1).map
        (fun rr => (rr.status, rr.riderId)) = some ("accepted", some 7)
    ∧ pgCountAcceptedOffers (pgAcceptOffer pgSt1 ⟨1, 7, some "ps7", 10⟩ 3).1 1
        = pgCountRiderOffers pgSt1 1 7 := by
  have h := pg_accept_offer_accepted_set pgSt1 ⟨1, 7, some "ps7", 10⟩ pgRide1 3
    (by decide) (by decide) (by decide) (by decide)
  exact ⟨h.1, h.2.1⟩

/-! ### Claim C4 -/

/-- C4 fails on the code: after the concrete in-memory run, ride 0 has
status `accepted`, yet `make-offer` by rider s2 succeeds - there is no
RideNotPending error anywhere in the sources - and appends another offer to
the accepted ride. -/
theorem mem_make_offer_on_accepted_ride :
    (getK 0 memSt3.rides).map (fun r => r.status) = some "accepted"
    ∧ MemOut.isOk (memMakeOffer memSt3 "s2" ⟨0, 30, 5⟩ 5).2 = true
    ∧ (getK 0 (memMakeOffer memSt3 "s2" ⟨0, 30, 5⟩ 5).1.rides).map
        (fun r => r.offers.length) = some 2 := by
  decide

/-- C4 (amended): `make-offer` checks only that the caller is a registered
rider and that the ride exists on the connection - failing with the
Rider not found / Ride not found errors respectively and leaving the state
unchanged - and otherwise appends the offer to the ride's offer list
whatever the ride status is; `pending` is never required. -/
theorem mem_make_offer_ignores_status (st : ConnState) (sid : String)
    (d : MemOfferReq) (now : Nat) :
    (getK sid st.riders = none →
      memMakeOffer st sid d now = (st, MemOut.err "Rider not found"))
    ∧ (∀ rdr, getK sid st.riders = some rdr → getK d.rideId st.rides = none →
        memMakeOffer st sid d now = (st, MemOut.err "Ride not found"))
    ∧ (∀ rdr r, getK sid st.riders = some rdr → getK d.rideId st.rides = some r →
        MemOut.isOk (memMakeOffer st sid d now).2 = true
        ∧ getK d.rideId (memMakeOffer st sid d now).1.rides
            = some { r with offers := r.offers ++
                [{ riderId := sid, riderName := rdr.name, vehicleType := rdr.vehicleType,
                   licensePlate := rdr.licensePlate, price := d.price, eta := d.eta,
                   timestamp := now }] }) := by
  refine ⟨?_, ?_, ?_⟩
  · intro h
    simp [memMakeOffer, h]
  · intro rdr h1 h2
    simp [memMakeOffer, h1, h2]
  · intro rdr r h1 h2
    constructor
    · simp [memMakeOffer, h1, h2, MemOut.isOk]
    · simp [memMakeOffer, h1, h2, getK_setK_self]

/-- Witness for C4: on the concrete run, the offer append on the accepted
ride 0 is exactly the old list extended with the new offer. -/
theorem mem_make_offer_ignores_status_witness :
    MemOut.isOk (memMakeOffer memSt3 "s2" ⟨0, 30, 5⟩ 5).2 = true
    ∧ getK 0 (memMakeOffer memSt3 "s2" ⟨0, 30, 5⟩ 5).1.rides
        = some { memRideAt3 with offers := memRideAt3.offers ++
            [{ riderId := "s2", riderName := "Bob", vehicleType := "bike",
               licensePlate := "LEA-7", price := 30, eta := 5, timestamp := 5 }] } := by
  exact (mem_make_offer_ignores_status memSt3 "s2" ⟨0, 30, 5⟩ 5).2.2 memRiderS2 memRideAt3
    (by decide) (by decide)

/-! ### Claim C5 -/

/-- C5 fails on the code: after the concrete in-memory run ride 0 is
`completed` - a terminal state - yet `update-ride-status` happily moves it
back to `picked_up`; there is no InvalidTransition error anywhere in the
sources. -/
theorem mem_completed_to_picked_up_succeeds :
    (getK 0 memSt4.rides).map (fun r => r.status) = some "completed"
    ∧ MemOut.isOk (memUpdateRideStatus memSt4 "s2" ⟨0, "picked_up"⟩ 9).2 = true
    ∧ (getK 0 (memUpdateRideStatus memSt4 "s2" ⟨0, "picked_up"⟩ 9).1.rides).map
        (fun r => r.status) = some "picked_up" := by
  decide

/-- C5 (amended): `update-ride-status` validates nothing: whenever the ride
id is present the requested status string - any value, backward moves and
moves out of `completed` or `cancelled` included - is stored unconditionally
(stamping the matching timestamp for `picked_up` / `completed`), and an
unknown ride id makes the handler return silently with no change; in the
PostgreSQL variant the CHECK constraint restricts the stored value to the
five known statuses but imposes no transition order either. -/
theorem update_ride_status_no_validation (st : ConnState) (sid : String)
    (d : MemStatusReq) (now : Nat) :
    (getK d.rideId st.rides = none →
      memUpdateRideStatus st sid d now = (st, MemOut.silent))
    ∧ (∀ r, getK d.rideId st.rides = some r →
        MemOut.isOk (memUpdateRideStatus st sid d now).2 = true
        ∧ getK d.rideId (memUpdateRideStatus st sid d now).1.rides
            = some { r with
                status := d.status
                updatedAt := some now
                pickedUpAt := if d.status == "picked_up" then some now else r.pickedUpAt
                completedAt := if d.status == "completed" then some now else r.completedAt })
    ∧ (∀ (stP : PgState) (dP : PgStatusReq) (nowP : Nat) (rP : PgRide),
        pgStatusAllowed dP.status = true →
        pgFindRide stP dP.rideId = some rP →
        (pgFindRide (pgUpdateRideStatus stP dP nowP).1 dP.rideId).map (fun rr => rr.status)
          = some dP.status) := by
  refine ⟨?_, ?_, ?_⟩
  · intro h
    simp [memUpdateRideStatus, h]
  · intro r h
    constructor
    · simp [memUpdateRideStatus, h, MemOut.isOk]
    · simp [memUpdateRideStatus, h, getK_setK_self]
  · intro stP dP nowP rP hallow hfind
    have hfind' : stP.rides.find? (fun rr => rr.id == dP.rideId) = some rP := by
      have hq := hfind
      unfold pgFindRide at hq
      exact hq
    have hid := List.find?_some hfind'
    have hrow : ∀ x : PgRide,
        (((pgStatusRideRow dP nowP x).id == dP.rideId) = (x.id == dP.rideId)) := by
      intro x
      unfold pgStatusRideRow
      split <;> rfl
    have hmap := find?_map_id_pred stP.rides (fun rr => rr.id == dP.rideId)
      (pgStatusRideRow dP nowP) hrow
    have hupd : pgStatusRideRow dP nowP rP
        = { rP with
            status := dP.status
            updatedAt := some nowP
            pickedUpAt := if dP.status == "picked_up" then some nowP else rP.pickedUpAt
            completedAt := if dP.status == "completed" then some nowP else rP.completedAt } := by
      unfold pgStatusRideRow
      rw [if_pos hid]
    simp only [pgUpdateRideStatus, hallow, Bool.not_true, Bool.false_eq_true, if_false, hfind]
    show (((stP.rides.map (pgStatusRideRow dP nowP)).find? (fun rr => rr.id == dP.rideId)).map
        (fun rr => rr.status)) = some dP.status
    rw [hmap, hfind']
    rw [show ((some rP).map (pgStatusRideRow dP nowP)) = some (pgStatusRideRow dP nowP rP) from rfl]
    rw [hupd]
    rfl

/-- Witness for C5: a concrete unconditional status write in each variant. -/
theorem update_ride_status_no_validation_witness :
    MemOut.isOk (memUpdateRideStatus memSt4 "s2" ⟨0, "cancelled"⟩ 11).2 = true
    ∧ (pgFindRide (pgUpdateRideStatus pgSt3 ⟨1, "picked_up"⟩ 9).1 1).map
        (fun rr => rr.status) = some "picked_up" := by
  refine ⟨((update_ride_status_no_validation memSt4 "s2" ⟨0, "cancelled"⟩ 11).2.1
    memRideAt4 (by decide)).1, ?_⟩
  exact (update_ride_status_no_validation memSt4 "s2" ⟨0, "cancelled"⟩ 11).2.2
    pgSt3 ⟨1, "picked_up"⟩ 9 pgRideAt3 (by decide) (by decide)

/-! ### Claim C6 -/

/-- C6 fails on the code: ride 0 was accepted by the worker on socket s2,
yet `update-ride-status` invoked by the customer socket c1 - not the winning
worker - succeeds and completes the ride; the handler never looks at the
caller at all, and there is no NotAuthorized error in the sources. -/
theorem mem_update_status_by_non_winner :
    (getK 0 memSt3.rides).map (fun r => r.acceptedRiderId) = some (some "s2")
    ∧ MemOut.isOk (memUpdateRideStatus memSt3 "c1" ⟨0, "completed"⟩ 6).2 = true
    ∧ (getK 0 (memUpdateRideStatus memSt3 "c1" ⟨0, "completed"⟩ 6).1.rides).map
        (fun r => r.status) = some "completed" := by
  decide

/-- C6 (amended): the update-ride-status handlers perform no authorization
check - any caller on the connection that owns the ride may set any status,
the caller argument being ignored entirely; only the file-storage
complete_ride handler authorizes its caller, failing with the
Invalid ride completion error and leaving the whole state unchanged when
the calling socket's rider is not the rider recorded on the ride. -/
theorem complete_ride_auth_vs_update_status :
    (∀ (stM : ConnState) (sid : String) (d : MemStatusReq) (now : Nat) (r : MemRide),
        getK d.rideId stM.rides = some r →
        MemOut.isOk (memUpdateRideStatus stM sid d now).2 = true)
    ∧ (∀ (stF : FsState) (sid : String) (d : FsCompleteReq) (now : Nat) (rk : String)
        (rdr : FsRider) (r : FsRide),
        getK d.rideId stF.rides = some r →
        fsFindRiderBySocket stF.riders sid = some (rk, rdr) →
        r.riderId ≠ some rdr.riderId →
        fsCompleteRide stF sid d now = (stF, FsOut.err "Invalid ride completion")) := by
  constructor
  · intro stM sid d now r h
    simp [memUpdateRideStatus, h, MemOut.isOk]
  · intro stF sid d now rk rdr r h1 h2 h3
    simp [fsCompleteRide, h1, h2, h3]

/-- Witness for C6: any caller may advance ride 0 in the in-memory variant,
while in the file-storage variant rider RDR2 (socket s2) cannot complete the
ride assigned to RDR1. -/
theorem complete_ride_auth_vs_update_status_witness :
    MemOut.isOk (memUpdateRideStatus memSt3 "c9" ⟨0, "picked_up"⟩ 7).2 = true
    ∧ fsCompleteRide fsSt2 "s2" ⟨0, some "90"⟩ 5 = (fsSt2, FsOut.err "Invalid ride completion") := by
  refine ⟨complete_ride_auth_vs_update_status.1 memSt3 "c9" ⟨0, "picked_up"⟩ 7
    memRideAt3 (by decide), ?_⟩
  exact complete_ride_auth_vs_update_status.2 fsSt2 "s2" ⟨0, some "90"⟩ 5 "RDR2" fsRider2
    fsRideAt2 (by decide) (by decide) (by decide)

/-! ### Claim C7 -/

/-- C7 fails on the code: rider s2 already has a pending offer on pending
ride 0, yet a second `make-offer` by the same rider succeeds - there is no
DuplicateOffer error anywhere in the sources - and the ride ends with two
offers by the same rider. -/
theorem mem_duplicate_offer_appended :
    (getK 0 memSt2.rides).map
        (fun r => (r.offers.filter (fun o => o.riderId == "s2")).length) = some 1
    ∧ MemOut.isOk (memMakeOffer memSt2 "s2" ⟨0, 30, 5⟩ 4).2 = true
    ∧ (getK 0 (memMakeOffer memSt2 "s2" ⟨0, 30, 5⟩ 4).1.rides).map
        (fun r => (r.offers.filter (fun o => o.riderId == "s2")).length) = some 2 := by
  decide

/-- C7 (amended): `make-offer` performs no duplicate check: a rider who
already has an offer on the ride may submit again, every submission is
appended, and the rider's offer count on the ride grows by one each time -
a worker can hold several simultaneous offers on one ride. -/
theorem mem_make_offer_allows_duplicates (st : ConnState) (sid : String)
    (d : MemOfferReq) (now : Nat) (rdr : MemRider) (r : MemRide)
    (hrdr : getK sid st.riders = some rdr) (hr : getK d.rideId st.rides = some r)
    (_hdup : (r.offers.filter (fun o => o.riderId == sid)).length ≠ 0) :
    MemOut.isOk (memMakeOffer st sid d now).2 = true
    ∧ (getK d.rideId (memMakeOffer st sid d now).1.rides).map
        (fun x => (x.offers.filter (fun o => o.riderId == sid)).length)
        = some ((r.offers.filter (fun o => o.riderId == sid)).length + 1) := by
  constructor
  · simp [memMakeOffer, hrdr, hr, MemOut.isOk]
  · simp [memMakeOffer, hrdr, hr, getK_setK_self, List.filter_append]

/-- Witness for C7: the duplicate submission on the concrete run raises the
s2 offer count on ride 0 from one to two. -/
theorem mem_make_offer_allows_duplicates_witness :
    MemOut.isOk (memMakeOffer memSt2 "s2" ⟨0, 28, 4⟩ 6).2 = true
    ∧ (getK 0 (memMakeOffer memSt2 "s2" ⟨0, 28, 4⟩ 6).1.rides).map
        (fun x => (x.offers.filter (fun o => o.riderId == "s2")).length) = some 2 := by
  have h := mem_make_offer_allows_duplicates memSt2 "s2" ⟨0, 28, 4⟩ 6 memRiderS2 memRideAt2
    (by decide) (by decide) (by decide)
  refine ⟨h.1, ?_⟩
  rw [h.2]
  decide

/-! ### Claim C8 -/

/-- C8 fails on the code: in the in-memory variant a successful
`accept-offer` does NOT set the winning worker busy - the riders map is
untouched and the worker stays `online` (the same holds for the PostgreSQL
variant, whose accept-offer transaction never updates `users.status`). -/
theorem mem_accept_offer_leaves_riders :
    MemOut.isOk (memAcceptOffer memSt2 "c1" ⟨0, "s2"⟩ 3).2 = true
    ∧ (memAcceptOffer memSt2 "c1" ⟨0, "s2"⟩ 3).1.riders = memSt2.riders
    ∧ (getK "s2" memSt2.riders).map (fun rr => rr.status) = some "online" := by
  decide

/-- C8 (amended): only the file-storage variant manages availability:
accept_ride sets the accepting rider's status to `busy` (also incrementing
the rider's totalRides), and complete_ride sets it back to `online` (also
adding the parsed fare to the rider's earnings), touching no other rider
entry; the accept-offer and update-ride-status handlers of the in-memory
variant leave the riders and customers maps entirely unchanged. -/
theorem fs_availability_transitions :
    (∀ (st : FsState) (sid : String) (d : FsAcceptReq) (now : Nat) (ride : FsRide)
        (rk : String) (rdr : FsRider),
        getK d.rideId st.rides = some ride →
        fsFindRiderBySocket st.riders sid = some (rk, rdr) →
        (fsAcceptRide st sid d now).1.riders
          = setK rk { rdr with status := "busy", totalRides := rdr.totalRides + 1 } st.riders)
    ∧ (∀ (st : FsState) (sid : String) (d : FsCompleteReq) (now : Nat) (ride : FsRide)
        (rk : String) (rdr : FsRider),
        getK d.rideId st.rides = some ride →
        fsFindRiderBySocket st.riders sid = some (rk, rdr) →
        ride.riderId = some rdr.riderId →
        (fsCompleteRide st sid d now).1.riders
          = setK rk { rdr with
              status := "online",
              earnings := rdr.earnings + (((d.fare.getD "").toInt?).getD 0) } st.riders)
    ∧ (∀ (st : ConnState) (sid : String) (d : MemAcceptReq) (now : Nat),
        (memAcceptOffer st sid d now).1.riders = st.riders
        ∧ (memAcceptOffer st sid d now).1.customers = st.customers)
    ∧ (∀ (st : ConnState) (sid : String) (d : MemStatusReq) (now : Nat),
        (memUpdateRideStatus st sid d now).1.riders = st.riders) := by
  refine ⟨?_, ?_, ?_, ?_⟩
  · intro st sid d now ride rk rdr h1 h2
    simp [fsAcceptRide, h1, h2]
  · intro st sid d now ride rk rdr h1 h2 h3
    simp [fsCompleteRide, h1, h2, h3]
  · intro st sid d now
    cases hg : getK d.rideId st.rides with
    | none => simp [memAcceptOffer, hg]
    | some ride =>
      by_cases hs : ride.status = "pending"
      · cases hf : ride.offers.find? (fun o => o.riderId == d.riderId) with
        | none => simp [memAcceptOffer, hg, hs, hf]
        | some offer => simp [memAcceptOffer, hg, hs, hf]
      · simp [memAcceptOffer, hg, hs]
  · intro st sid d now
    cases hg : getK d.rideId st.rides with
    | none => simp [memUpdateRideStatus, hg]
    | some ride => simp [memUpdateRideStatus, hg]

/-- Witness for C8: on the concrete runs, accept_ride turns RDR1 busy,
complete_ride turns RDR1 online again, and the in-memory acceptance leaves
the riders map as it was. -/
theorem fs_availability_transitions_witness :
    (getK "RDR1" (fsAcceptRide fsSt1 "s1" ⟨0⟩ 2).1.riders).map (fun rr => rr.status)
      = some "busy"
    ∧ (getK "RDR1" (fsCompleteRide fsSt2 "s1" ⟨0, some "80"⟩ 6).1.riders).map
        (fun rr => rr.status) = some "online"
    ∧ (memAcceptOffer memSt2 "c1" ⟨0, "s2"⟩ 8).1.riders = memSt2.riders := by
  refine ⟨?_, ?_, (fs_availability_transitions.2.2.1 memSt2 "c1" ⟨0, "s2"⟩ 8).1⟩
  · rw [fs_availability_transitions.1 fsSt1 "s1" ⟨0⟩ 2 fsRideAt1 "RDR1" fsRider1
      (by decide) (by decide)]
    decide
  · rw [fs_availability_transitions.2.1 fsSt2 "s1" ⟨0, some "80"⟩ 6 fsRideAt2
      fsRiderFound2.1 fsRiderFound2.2 (by decide) (by decide) (by decide)]
    decide

/-! ### Claim C9 -/

/-- C9: the claim is right and the code is wrong.  A valid complete_ride
call - existing ride, rider on the calling socket, rider matching the one
recorded on the ride - mutates the ride (status `completed`), the rider and
the customer, and then throws the uncaught `ReferenceError: rideId is not
defined` (line 451 of server.js logs the undeclared identifier `rideId`):
no completion event is ever emitted and the exception escapes the handler
instead of being reported to the caller. -/
theorem fs_complete_ride_crashes (st : FsState) (sid : String) (d : FsCompleteReq)
    (now : Nat) (ride : FsRide) (rk : String) (rdr : FsRider)
    (hr : getK d.rideId st.rides = some ride)
    (hrdr : fsFindRiderBySocket st.riders sid = some (rk, rdr))
    (hauth : ride.riderId = some rdr.riderId) :
    (fsCompleteRide st sid d now).2 = FsOut.crash "rideId is not defined"
    ∧ (getK d.rideId (fsCompleteRide st sid d now).1.rides).map (fun r => r.status)
        = some "completed"
    ∧ ∀ evs : List FsEvent, (fsCompleteRide st sid d now).2 ≠ FsOut.ok evs := by
  refine ⟨?_, ?_, ?_⟩
  · simp [fsCompleteRide, hr, hrdr, hauth]
  · simp [fsCompleteRide, hr, hrdr, hauth, getK_setK_self]
  · intro evs
    simp [fsCompleteRide, hr, hrdr, hauth]

/-- Witness for C9: on the concrete run, the assigned rider RDR1 completes
ride 0 and the handler crashes after mutating the ride to `completed`. -/
theorem fs_complete_ride_crashes_witness :
    (fsCompleteRide fsSt2 "s1" ⟨0, some "100"⟩ 4).2 = FsOut.crash "rideId is not defined"
    ∧ (getK 0 (fsCompleteRide fsSt2 "s1" ⟨0, some "100"⟩ 4).1.rides).map
        (fun r => r.status) = some "completed" := by
  have h := fs_complete_ride_crashes fsSt2 "s1" ⟨0, some "100"⟩ 4 fsRideAt2
    fsRiderFound2.1 fsRiderFound2.2 (by decide) (by decide) (by decide)
  exact ⟨h.1, h.2.1⟩

/-! ### Claim C10 -/

/-- C10 fails on the code: `request_ride` with EMPTY pickup and destination
succeeds - there is no InvalidRequest error anywhere in the sources - and
creates the ride (status `pending`, empty offers) with the empty
descriptors stored verbatim. -/
theorem fs_request_ride_empty_pickup_creates :
    FsOut.isOk fsEmptyReq.2 = true
    ∧ (getK 0 fsEmptyReq.1.rides).map
        (fun r => (r.status, r.pickup, r.destination, r.offers.length))
        = some ("pending", "", "", 0) := by
  decide

/-- C10 (amended): ride creation is unconditional: the file-storage
request_ride allocates the fresh identifier (unused in the store), stores
the ride with status `pending` and an empty offers sequence whatever the
payload - pickup and dropoff are never validated, empty ones included - and
bumps the id counter; the in-memory request-ride additionally requires only
that the caller is a registered customer of the connection, failing with
the Customer not found error otherwise, and likewise never validates the
locations. -/
theorem request_ride_unconditional_create (st : FsState) (d : FsRideReq) (now : Nat)
    (hfresh : getK st.next st.rides = none) :
    getK st.next st.rides = none
    ∧ FsOut.isOk (fsRequestRide st d now).2 = true
    ∧ getK st.next (fsRequestRide st d now).1.rides
        = some { rideId := st.next,
                 customerId := d.customerId.getD ("guest_" ++ toString now),
                 customerName := d.customerName.getD "Customer",
                 pickup := d.pickup, destination := d.destination,
                 fare := d.fare.getD "To be determined",
                 notes := d.notes.getD "",
                 status := "pending", createdAt := now, offers := [],
                 riderId := none, riderName := none, riderPhone := none,
                 riderVehicle := none, acceptedAt := none, estimatedArrival := none,
                 completedAt := none, actualFare := none }
    ∧ (fsRequestRide st d now).1.next = st.next + 1
    ∧ (∀ (stM : ConnState) (sid : String) (rid : Nat) (dM : MemRideReq) (nowM : Nat),
        getK sid stM.customers = none →
        memRequestRide stM sid rid dM nowM
          = (stM, MemOut.err "Customer not found. Please reconnect."))
    ∧ (∀ (stM : ConnState) (sid : String) (rid : Nat) (dM : MemRideReq) (nowM : Nat)
         (c : MemCustomer),
        getK sid stM.customers = some c →
        (getK rid (memRequestRide stM sid rid dM nowM).1.rides).map
            (fun r => (r.status, r.offers.length)) = some ("pending", 0)) := by
  refine ⟨hfresh, ?_, ?_, ?_, ?_, ?_⟩
  · rfl
  · simp [fsRequestRide, getK_setK_self]
  · rfl
  · intro stM sid rid dM nowM h
    simp [memRequestRide, h]
  · intro stM sid rid dM nowM c h
    simp [memRequestRide, h, getK_setK_self]

/-- Witness for C10: the concrete empty-descriptor request on the empty
store, and a request by an unregistered customer in the in-memory variant. -/
theorem request_ride_unconditional_create_witness :
    FsOut.isOk (fsRequestRide fsEmpty fsReqW 7).2 = true
    ∧ (fsRequestRide fsEmpty fsReqW 7).1.next = 1
    ∧ memRequestRide memBase "zz" 5 ⟨"X", "Y", none⟩ 9
        = (memBase, MemOut.err "Customer not found. Please reconnect.") := by
  have h := request_ride_unconditional_create fsEmpty fsReqW 7 (by decide)
  exact ⟨h.2.1, h.2.2.2.1, h.2.2.2.2.1 memBase "zz" 5 ⟨"X", "Y", none⟩ 9 (by decide)⟩

end Bykea
